import Mathlib

/-!
Verification of `src/lpsolve__5_5__ratios__fractional_01_programming__example.py`,
a straight-line PuLP script that builds two linear-programming models
(a continuous Charnes-Cooper relaxation and a binary-constrained
transformed model), hands each to an external solver, and prints the
solved ratios and objective values.

The script is shallowly embedded: models are data (variables with
bounds and categories, linear expressions as ordered term lists,
constraints as expression/relation/right-hand-side triples), the
external solver is an abstract function from a model to a result
(a status code plus an assignment of values to variables), and the
printing code after each solve is a function from the solver result to
the printed quantities, with Python division embedded as a fallible
operation in the `Except` monad.  All numeric literals of the source
are embedded as exact rationals.
-/

namespace LinProg

/-- Variable category, mirroring the `cat` argument of `pulp.LpVariable`
(`Continuous` or `Binary`; `Integer` is unused by the script). -/
inductive Cat where
  | Continuous : Cat
  | Binary : Cat
deriving DecidableEq, Repr

/-- A decision variable: a name, optional lower and upper bounds, and a
category, mirroring `pulp.LpVariable`.  PuLP gives a `Binary` variable
bounds 0 and 1 implicitly. -/
structure LpVar where
  name : String
  lowBound : Option ℚ
  upBound : Option ℚ
  cat : Cat
deriving DecidableEq, Repr

/-- A value `q` respects the bounds and category of variable `x`:
within the declared bounds, and in `{0, 1}` when the category is
`Binary`. -/
def varOk (x : LpVar) (q : ℚ) : Prop :=
  (∀ b, x.lowBound = some b → b ≤ q) ∧
  (∀ b, x.upBound = some b → q ≤ b) ∧
  (x.cat = Cat.Binary → q = 0 ∨ q = 1)

instance (x : LpVar) (q : ℚ) : Decidable (varOk x q) := by
  unfold varOk; infer_instance

/-- A linear expression: an ordered list of coefficient/variable terms
plus a constant, mirroring `pulp.LpAffineExpression`. -/
structure LinExpr (V : Type) where
  terms : List (ℚ × V)
  const : ℚ

/-- Value of a linear expression under an assignment of rationals to
the variables. -/
def LinExpr.eval {V : Type} (e : LinExpr V) (v : V → ℚ) : ℚ :=
  (e.terms.map (fun t => t.1 * v t.2)).sum + e.const

/-- Comparison relation of a constraint (`<=`, `>=`, `==`). -/
inductive Rel where
  | le : Rel
  | ge : Rel
  | eq : Rel
deriving DecidableEq, Repr

/-- A linear constraint: expression, relation, right-hand constant,
mirroring `pulp.LpConstraint`. -/
structure Constraint (V : Type) where
  expr : LinExpr V
  rel : Rel
  rhs : ℚ

/-- The constraint is satisfied by an assignment. -/
def Constraint.holds {V : Type} (c : Constraint V) (v : V → ℚ) : Prop :=
  match c.rel with
  | Rel.le => c.expr.eval v ≤ c.rhs
  | Rel.ge => c.expr.eval v ≥ c.rhs
  | Rel.eq => c.expr.eval v = c.rhs

instance {V : Type} (c : Constraint V) (v : V → ℚ) : Decidable (c.holds v) := by
  unfold Constraint.holds
  cases c.rel <;> infer_instance

/-- Optimization sense, mirroring `pulp.LpMaximize` / `pulp.LpMinimize`. -/
inductive Sense where
  | Maximize : Sense
  | Minimize : Sense
deriving DecidableEq, Repr

/-- A model: a name, a sense, an objective, the added constraints in
order, and the variables it owns, mirroring `pulp.LpProblem`. -/
structure LpProblem (V : Type) where
  name : String
  sense : Sense
  objective : LinExpr V
  constraints : List (Constraint V)
  vars : V → LpVar

/-- An assignment is feasible for a model when every variable value
respects its bounds and category and every constraint holds. -/
def feasible {V : Type} (m : LpProblem V) (v : V → ℚ) : Prop :=
  (∀ x, varOk (m.vars x) (v x)) ∧ ∀ c ∈ m.constraints, c.holds v

/-- `q` is the maximum objective value of model `m`: attained by some
feasible assignment, and an upper bound on the objective over all
feasible assignments.  (Both models of the script are `Maximize`.) -/
def isMaxValue {V : Type} (m : LpProblem V) (q : ℚ) : Prop :=
  (∃ v, feasible m v ∧ m.objective.eval v = q) ∧
  ∀ v, feasible m v → m.objective.eval v ≤ q

/-! ## Part 1 model (source lines 42-52) -/

/-- Index type for the three variables of the Part 1 model. -/
inductive V1 where
  | y0 : V1
  | y1 : V1
  | y2 : V1
deriving DecidableEq, Repr, Fintype

/-- `y0 = pulp.LpVariable('y0', lowBound=0, cat='Continuous')` and its
two siblings (source lines 44-46). -/
def vars1 : V1 → LpVar
  | V1.y0 => ⟨"y0", some 0, none, Cat.Continuous⟩
  | V1.y1 => ⟨"y1", some 0, none, Cat.Continuous⟩
  | V1.y2 => ⟨"y2", some 0, none, Cat.Continuous⟩

/-- The Part 1 model (source lines 42-52): objective
`1.8*y1 + 1.7*y2` (line 48), then the three constraints in the order
they are added (lines 50-52). -/
def model1 : LpProblem V1 where
  name := "lp solve fractional 0-1 programming example"
  sense := Sense.Maximize
  objective := ⟨[(1.8, V1.y1), (1.7, V1.y2)], 0⟩
  constraints :=
    [ ⟨⟨[(-6, V1.y0), (1.5, V1.y1), (1, V1.y2)], 0⟩, Rel.le, 0⟩,
      ⟨⟨[(-20, V1.y0), (3.0, V1.y1), (4, V1.y2)], 0⟩, Rel.le, 0⟩,
      ⟨⟨[(10, V1.y0), (4.0, V1.y1), (4.1, V1.y2)], 0⟩, Rel.eq, 1⟩ ]
  vars := vars1

/-! ## Part 2 model (source lines 80-110) -/

/-- Index type for the five variables of the Part 2 model. -/
inductive V2 where
  | y0 : V2
  | y1 : V2
  | y2 : V2
  | z1 : V2
  | z2 : V2
deriving DecidableEq, Repr, Fintype

/-- Part 2 variables (source lines 82-90): fresh continuous `y0 y1 y2`
with lower bound 0, and binary `z1 z2` (PuLP bounds a binary variable
by 0 and 1). -/
def vars2 : V2 → LpVar
  | V2.y0 => ⟨"y0", some 0, none, Cat.Continuous⟩
  | V2.y1 => ⟨"y1", some 0, none, Cat.Continuous⟩
  | V2.y2 => ⟨"y2", some 0, none, Cat.Continuous⟩
  | V2.z1 => ⟨"z1", some 0, some 1, Cat.Binary⟩
  | V2.z2 => ⟨"z2", some 0, some 1, Cat.Binary⟩

/-- The Part 2 model (source lines 80-110): objective `1.8*y1 + 1.7*y2`
(line 92), then nine constraints in the order they are added: the
Charnes-Cooper normalization (line 95), the two transformed
inequalities (lines 98-99), and the six linking constraints
(lines 104-110).  `y1 <= 0.127 * z1` is stored the way PuLP stores it,
with the right-hand variable term moved to the left. -/
def model2 : LpProblem V2 where
  name := "lp solve fractional 0-1 programming example"
  sense := Sense.Maximize
  objective := ⟨[(1.8, V2.y1), (1.7, V2.y2)], 0⟩
  constraints :=
    [ ⟨⟨[(10, V2.y0), (4.0, V2.y1), (4.1, V2.y2)], 0⟩, Rel.eq, 1⟩,
      ⟨⟨[(-6, V2.y0), (1.5, V2.y1), (1, V2.y2)], 0⟩, Rel.le, 0⟩,
      ⟨⟨[(-20, V2.y0), (3.0, V2.y1), (4, V2.y2)], 0⟩, Rel.le, 0⟩,
      ⟨⟨[(1, V2.y1), (-0.127, V2.z1)], 0⟩, Rel.le, 0⟩,
      ⟨⟨[(1, V2.y1), (-1, V2.y0), (-0.032, V2.z1)], 0⟩, Rel.ge, -0.032⟩,
      ⟨⟨[(1, V2.y1), (-1, V2.y0), (0.032, V2.z1)], 0⟩, Rel.le, 0.032⟩,
      ⟨⟨[(1, V2.y2), (-0.127, V2.z2)], 0⟩, Rel.le, 0⟩,
      ⟨⟨[(1, V2.y2), (-1, V2.y0), (-0.032, V2.z2)], 0⟩, Rel.ge, -0.032⟩,
      ⟨⟨[(1, V2.y2), (-1, V2.y0), (0.032, V2.z2)], 0⟩, Rel.le, 0.032⟩ ]
  vars := vars2

/-! ## The external solver and the printing code -/

/-- Result of a call to the external solver, mirroring the fields the
script reads back: `model.status`, each variable value `.varValue`, and
`model.solutionTime`.  The solver itself is external to the repository
and is modelled throughout as an abstract function
`LpProblem V → SolverResult V`. -/
structure SolverResult (V : Type) where
  status : ℤ
  values : V → ℚ
  solutionTime : ℚ

/-- Python runtime fault relevant to the script: division by zero. -/
inductive PyErr where
  | zeroDivision : PyErr
deriving DecidableEq, Repr

/-- Python division: faults with `ZeroDivisionError` when the
denominator is zero, otherwise returns the exact quotient. -/
def pyDiv (a b : ℚ) : Except PyErr ℚ :=
  if b = 0 then Except.error PyErr.zeroDivision else Except.ok (a / b)

/-- The `pulp.LpStatus` lookup table mapping a solver status code to a
display string. -/
def lpStatus : ℤ → String
  | 0 => "Not Solved"
  | 1 => "Optimal"
  | -1 => "Infeasible"
  | -2 => "Unbounded"
  | -3 => "Undefined"
  | _ => "Undefined"

/-- The four quantities one part of the script prints (source lines
57-60 and 115-118): the two ratios, the objective value, and the
solution time. -/
structure PartOutput where
  x1 : ℚ
  x2 : ℚ
  objValue : ℚ
  solTime : ℚ
deriving DecidableEq, Repr

/-- Source lines 55-60: the status lookup, whose value is discarded,
followed unconditionally by the four prints; each ratio is a bare
Python division of solved values, so a zero solved `y0` faults. -/
def printsPart1 (m : LpProblem V1) (res : SolverResult V1) : Except PyErr PartOutput := do
  let _ := lpStatus res.status
  let r1 ← pyDiv (res.values V1.y1) (res.values V1.y0)
  let r2 ← pyDiv (res.values V1.y2) (res.values V1.y0)
  Except.ok ⟨r1, r2, m.objective.eval res.values, res.solutionTime⟩

/-- Source lines 113-118: the Part 2 status lookup and prints, same
shape as Part 1. -/
def printsPart2 (m : LpProblem V2) (res : SolverResult V2) : Except PyErr PartOutput := do
  let _ := lpStatus res.status
  let r1 ← pyDiv (res.values V2.y1) (res.values V2.y0)
  let r2 ← pyDiv (res.values V2.y2) (res.values V2.y0)
  Except.ok ⟨r1, r2, m.objective.eval res.values, res.solutionTime⟩

/-- The whole script, top to bottom, given the external solver for each
part: build `model1`, solve it, print; then build `model2` (a fresh
model — `model2` takes nothing from Part 1), solve it, print.  An
uncaught Python fault in Part 1 aborts the script before Part 2, which
the `Except` bind reflects. -/
def runScript (s1 : LpProblem V1 → SolverResult V1)
    (s2 : LpProblem V2 → SolverResult V2) :
    Except PyErr (PartOutput × PartOutput) := do
  let o1 ← printsPart1 model1 (s1 model1)
  let o2 ← printsPart2 model2 (s2 model2)
  Except.ok (o1, o2)

/-! ## Statement-level trace of the script

A syntactic statement list mirroring the top-level statements of the
source file in order, used for counting solver invocations and print
statements. -/

/-- One top-level statement of the script, tagged with the part (1 or
2) it belongs to. -/
inductive Stmt where
  | importLib : Stmt
  | newModel : ℕ → Stmt
  | newVar : ℕ → String → Cat → Stmt
  | setObjective : ℕ → Stmt
  | addConstraint : ℕ → ℕ → Stmt
  | solveCall : ℕ → Stmt
  | statusLookup : ℕ → Stmt
  | printCall : ℕ → ℕ → Stmt
deriving DecidableEq, Repr

/-- The top-level statements of the source file, in source order
(lines 34-118). -/
def script : List Stmt :=
  [ Stmt.importLib,
    Stmt.newModel 1,
    Stmt.newVar 1 "y0" Cat.Continuous,
    Stmt.newVar 1 "y1" Cat.Continuous,
    Stmt.newVar 1 "y2" Cat.Continuous,
    Stmt.setObjective 1,
    Stmt.addConstraint 1 0,
    Stmt.addConstraint 1 1,
    Stmt.addConstraint 1 2,
    Stmt.solveCall 1,
    Stmt.statusLookup 1,
    Stmt.printCall 1 0,
    Stmt.printCall 1 1,
    Stmt.printCall 1 2,
    Stmt.printCall 1 3,
    Stmt.importLib,
    Stmt.newModel 2,
    Stmt.newVar 2 "y0" Cat.Continuous,
    Stmt.newVar 2 "y1" Cat.Continuous,
    Stmt.newVar 2 "y2" Cat.Continuous,
    Stmt.newVar 2 "z1" Cat.Binary,
    Stmt.newVar 2 "z2" Cat.Binary,
    Stmt.setObjective 2,
    Stmt.addConstraint 2 0,
    Stmt.addConstraint 2 1,
    Stmt.addConstraint 2 2,
    Stmt.addConstraint 2 3,
    Stmt.addConstraint 2 4,
    Stmt.addConstraint 2 5,
    Stmt.addConstraint 2 6,
    Stmt.addConstraint 2 7,
    Stmt.addConstraint 2 8,
    Stmt.solveCall 2,
    Stmt.statusLookup 2,
    Stmt.printCall 2 0,
    Stmt.printCall 2 1,
    Stmt.printCall 2 2,
    Stmt.printCall 2 3 ]

/-! ## Distinguished points and parameterized model builders -/

/-- The unique optimal point of the Part 1 model. -/
def vstar1 : V1 → ℚ
  | V1.y0 => 15 / 476
  | V1.y1 => 5 / 119
  | V1.y2 => 15 / 119

/-- The unique optimal point of the Part 2 model. -/
def vstar2 : V2 → ℚ
  | V2.y0 => 10 / 181
  | V2.y1 => 10 / 181
  | V2.y2 => 10 / 181
  | V2.z1 => 1
  | V2.z2 => 1

/-- Projection of a Part 2 assignment onto the Part 1 variables. -/
def proj21 (v : V2 → ℚ) : V1 → ℚ
  | V1.y0 => v V2.y0
  | V1.y1 => v V2.y1
  | V1.y2 => v V2.y2

/-- The numeric literals of the Part 1 model construction (source
lines 48-52), one field per occurrence. -/
structure Coeffs1 where
  obj_y1 : ℚ
  obj_y2 : ℚ
  r1_y0 : ℚ
  r1_y1 : ℚ
  r1_y2 : ℚ
  r1_rhs : ℚ
  r2_y0 : ℚ
  r2_y1 : ℚ
  r2_y2 : ℚ
  r2_rhs : ℚ
  r3_y0 : ℚ
  r3_y1 : ℚ
  r3_y2 : ℚ
  r3_rhs : ℚ
deriving DecidableEq

/-- The Part 1 model construction as a function of its numeric
literals; the statement sequence is that of source lines 42-52. -/
def buildPart1 (c : Coeffs1) : LpProblem V1 where
  name := "lp solve fractional 0-1 programming example"
  sense := Sense.Maximize
  objective := ⟨[(c.obj_y1, V1.y1), (c.obj_y2, V1.y2)], 0⟩
  constraints :=
    [ ⟨⟨[(c.r1_y0, V1.y0), (c.r1_y1, V1.y1), (c.r1_y2, V1.y2)], 0⟩, Rel.le, c.r1_rhs⟩,
      ⟨⟨[(c.r2_y0, V1.y0), (c.r2_y1, V1.y1), (c.r2_y2, V1.y2)], 0⟩, Rel.le, c.r2_rhs⟩,
      ⟨⟨[(c.r3_y0, V1.y0), (c.r3_y1, V1.y1), (c.r3_y2, V1.y2)], 0⟩, Rel.eq, c.r3_rhs⟩ ]
  vars := vars1

/-- The literals the source supplies in Part 1. -/
def coeffs1 : Coeffs1 :=
  ⟨1.8, 1.7, -6, 1.5, 1, 0, -20, 3.0, 4, 0, 10, 4.0, 4.1, 1⟩

/-- The numeric literals of the Part 2 model construction (source
lines 92-110), one field per occurrence: objective, normalization row,
two inequality rows, and the linking-constraint literals of lines
104-106 (`f1`, the three `0.032` of lines 105-106 and the right-hand
sides) and of lines 108-110. -/
structure Coeffs2 where
  obj_y1 : ℚ
  obj_y2 : ℚ
  n_y0 : ℚ
  n_y1 : ℚ
  n_y2 : ℚ
  n_rhs : ℚ
  r1_y0 : ℚ
  r1_y1 : ℚ
  r1_y2 : ℚ
  r1_rhs : ℚ
  r2_y0 : ℚ
  r2_y1 : ℚ
  r2_y2 : ℚ
  r2_rhs : ℚ
  f1 : ℚ
  g1a : ℚ
  g1b : ℚ
  g1c : ℚ
  g1d : ℚ
  f2 : ℚ
  g2a : ℚ
  g2b : ℚ
  g2c : ℚ
  g2d : ℚ
deriving DecidableEq

/-- The Part 2 model construction as a function of its numeric
literals; the statement sequence is that of source lines 80-110. -/
def buildPart2 (c : Coeffs2) : LpProblem V2 where
  name := "lp solve fractional 0-1 programming example"
  sense := Sense.Maximize
  objective := ⟨[(c.obj_y1, V2.y1), (c.obj_y2, V2.y2)], 0⟩
  constraints :=
    [ ⟨⟨[(c.n_y0, V2.y0), (c.n_y1, V2.y1), (c.n_y2, V2.y2)], 0⟩, Rel.eq, c.n_rhs⟩,
      ⟨⟨[(c.r1_y0, V2.y0), (c.r1_y1, V2.y1), (c.r1_y2, V2.y2)], 0⟩, Rel.le, c.r1_rhs⟩,
      ⟨⟨[(c.r2_y0, V2.y0), (c.r2_y1, V2.y1), (c.r2_y2, V2.y2)], 0⟩, Rel.le, c.r2_rhs⟩,
      ⟨⟨[(1, V2.y1), (-c.f1, V2.z1)], 0⟩, Rel.le, 0⟩,
      ⟨⟨[(1, V2.y1), (-1, V2.y0), (-c.g1a, V2.z1)], 0⟩, Rel.ge, -c.g1b⟩,
      ⟨⟨[(1, V2.y1), (-1, V2.y0), (c.g1c, V2.z1)], 0⟩, Rel.le, c.g1d⟩,
      ⟨⟨[(1, V2.y2), (-c.f2, V2.z2)], 0⟩, Rel.le, 0⟩,
      ⟨⟨[(1, V2.y2), (-1, V2.y0), (-c.g2a, V2.z2)], 0⟩, Rel.ge, -c.g2b⟩,
      ⟨⟨[(1, V2.y2), (-1, V2.y0), (c.g2c, V2.z2)], 0⟩, Rel.le, c.g2d⟩ ]
  vars := vars2

/-- The literals the source supplies in Part 2. -/
def coeffs2 : Coeffs2 :=
  ⟨1.8, 1.7, 10, 4.0, 4.1, 1, -6, 1.5, 1, 0, -20, 3.0, 4, 0,
   0.127, 0.032, 0.032, 0.032, 0.032, 0.127, 0.032, 0.032, 0.032, 0.032⟩

/-! ## Feasibility of the two models in explicit arithmetic form -/

/-- Case split over the three Part 1 variables. -/
theorem forall_v1 {P : V1 → Prop} : (∀ x, P x) ↔ P V1.y0 ∧ P V1.y1 ∧ P V1.y2 :=
  ⟨fun h => ⟨h _, h _, h _⟩, fun h x => by rcases h with ⟨a, b, c⟩; cases x <;> assumption⟩

/-- Case split over the five Part 2 variables. -/
theorem forall_v2 {P : V2 → Prop} :
    (∀ x, P x) ↔ P V2.y0 ∧ P V2.y1 ∧ P V2.y2 ∧ P V2.z1 ∧ P V2.z2 :=
  ⟨fun h => ⟨h _, h _, h _, h _, h _⟩,
   fun h x => by rcases h with ⟨a, b, c, d, e⟩; cases x <;> assumption⟩

/-- Feasibility of the Part 1 model, spelled out: nonnegativity of the
three continuous variables and the three constraints of source lines
50-52. -/
theorem feasible_model1_iff (v : V1 → ℚ) :
    feasible model1 v ↔
      0 ≤ v V1.y0 ∧ 0 ≤ v V1.y1 ∧ 0 ≤ v V1.y2 ∧
      -6 * v V1.y0 + 1.5 * v V1.y1 + v V1.y2 ≤ 0 ∧
      -20 * v V1.y0 + 3.0 * v V1.y1 + 4 * v V1.y2 ≤ 0 ∧
      10 * v V1.y0 + 4.0 * v V1.y1 + 4.1 * v V1.y2 = 1 := by
  simp [feasible, model1, forall_v1, varOk, vars1, Constraint.holds, LinExpr.eval,
    and_assoc]
  intro h1 h2 h3
  constructor <;> rintro ⟨h4, h5, h6⟩ <;> exact ⟨by linarith, by linarith, by linarith⟩

/-- Feasibility of the Part 2 model, spelled out: nonnegativity of the
continuous variables, binariness of `z1 z2`, and the nine constraints
of source lines 95-110 as the source writes them. -/
theorem feasible_model2_iff (v : V2 → ℚ) :
    feasible model2 v ↔
      0 ≤ v V2.y0 ∧ 0 ≤ v V2.y1 ∧ 0 ≤ v V2.y2 ∧
      (v V2.z1 = 0 ∨ v V2.z1 = 1) ∧ (v V2.z2 = 0 ∨ v V2.z2 = 1) ∧
      10 * v V2.y0 + 4.0 * v V2.y1 + 4.1 * v V2.y2 = 1 ∧
      -6 * v V2.y0 + 1.5 * v V2.y1 + v V2.y2 ≤ 0 ∧
      -20 * v V2.y0 + 3.0 * v V2.y1 + 4 * v V2.y2 ≤ 0 ∧
      v V2.y1 ≤ 0.127 * v V2.z1 ∧
      v V2.y1 - v V2.y0 - 0.032 * v V2.z1 ≥ -0.032 ∧
      v V2.y1 - v V2.y0 + 0.032 * v V2.z1 ≤ 0.032 ∧
      v V2.y2 ≤ 0.127 * v V2.z2 ∧
      v V2.y2 - v V2.y0 - 0.032 * v V2.z2 ≥ -0.032 ∧
      v V2.y2 - v V2.y0 + 0.032 * v V2.z2 ≤ 0.032 := by
  simp [feasible, model2, forall_v2, varOk, vars2, Constraint.holds, LinExpr.eval,
    and_assoc]
  intro h1 h2 h3
  constructor
  · rintro ⟨hz1a, hz1b, hz1c, hz2a, hz2b, hz2c, c1, c2, c3, c4, c5, c6, c7, c8, c9⟩
    exact ⟨hz1c, hz2c, by linarith, by linarith, by linarith, by linarith, by linarith,
      by linarith, by linarith, by linarith, by linarith⟩
  · rintro ⟨bz1, bz2, c1, c2, c3, c4, c5, c6, c7, c8, c9⟩
    have hz1a : 0 ≤ v V2.z1 := by rcases bz1 with h | h <;> simp [h]
    have hz1b : v V2.z1 ≤ 1 := by rcases bz1 with h | h <;> simp [h]
    have hz2a : 0 ≤ v V2.z2 := by rcases bz2 with h | h <;> simp [h]
    have hz2b : v V2.z2 ≤ 1 := by rcases bz2 with h | h <;> simp [h]
    exact ⟨hz1a, hz1b, bz1, hz2a, hz2b, bz2, by linarith, by linarith, by linarith,
      by linarith, by linarith, by linarith, by linarith, by linarith, by linarith⟩

/-- The constraint list of the Part 1 model, in explicit arithmetic
form. -/
theorem model1_constraints_iff (v : V1 → ℚ) :
    (∀ c ∈ model1.constraints, c.holds v) ↔
      -6 * v V1.y0 + 1.5 * v V1.y1 + v V1.y2 ≤ 0 ∧
      -20 * v V1.y0 + 3.0 * v V1.y1 + 4 * v V1.y2 ≤ 0 ∧
      10 * v V1.y0 + 4.0 * v V1.y1 + 4.1 * v V1.y2 = 1 := by
  simp [model1, Constraint.holds, LinExpr.eval, and_assoc]
  constructor <;> rintro ⟨h1, h2, h3⟩ <;>
    exact ⟨by linarith, by linarith, by linarith⟩

/-- The constraint list of the Part 2 model, in explicit arithmetic
form, the linking constraints written as the source writes them. -/
theorem model2_constraints_iff (v : V2 → ℚ) :
    (∀ c ∈ model2.constraints, c.holds v) ↔
      10 * v V2.y0 + 4.0 * v V2.y1 + 4.1 * v V2.y2 = 1 ∧
      -6 * v V2.y0 + 1.5 * v V2.y1 + v V2.y2 ≤ 0 ∧
      -20 * v V2.y0 + 3.0 * v V2.y1 + 4 * v V2.y2 ≤ 0 ∧
      v V2.y1 ≤ 0.127 * v V2.z1 ∧
      v V2.y1 - v V2.y0 - 0.032 * v V2.z1 ≥ -0.032 ∧
      v V2.y1 - v V2.y0 + 0.032 * v V2.z1 ≤ 0.032 ∧
      v V2.y2 ≤ 0.127 * v V2.z2 ∧
      v V2.y2 - v V2.y0 - 0.032 * v V2.z2 ≥ -0.032 ∧
      v V2.y2 - v V2.y0 + 0.032 * v V2.z2 ≤ 0.032 := by
  simp [model2, Constraint.holds, LinExpr.eval, and_assoc]
  constructor <;> rintro ⟨h1, h2, h3, h4, h5, h6, h7, h8, h9⟩ <;>
    exact ⟨by linarith, by linarith, by linarith, by linarith, by linarith,
      by linarith, by linarith, by linarith, by linarith⟩

/-! ## Exact optima of the two models -/

theorem vstar1_feasible : feasible model1 vstar1 := by
  rw [feasible_model1_iff]
  norm_num [vstar1]

theorem vstar1_obj : model1.objective.eval vstar1 = 69 / 238 := by
  norm_num [model1, LinExpr.eval, vstar1]

theorem vstar2_feasible : feasible model2 vstar2 := by
  rw [feasible_model2_iff]
  norm_num [vstar2]

theorem vstar2_obj : model2.objective.eval vstar2 = 35 / 181 := by
  norm_num [model2, LinExpr.eval, vstar2]

/-- Every feasible point of the Part 1 model has objective value at
most `69/238`. -/
theorem model1_obj_bound (v : V1 → ℚ) (h : feasible model1 v) :
    model1.objective.eval v ≤ 69 / 238 := by
  rw [feasible_model1_iff] at h
  obtain ⟨h1, h2, h3, h4, h5, h6⟩ := h
  simp [model1, LinExpr.eval]
  linarith

/-- A feasible point of the Part 1 model attaining `69/238` is
`vstar1`. -/
theorem model1_opt_unique (v : V1 → ℚ) (h : feasible model1 v)
    (hopt : model1.objective.eval v = 69 / 238) :
    v V1.y0 = 15 / 476 ∧ v V1.y1 = 5 / 119 ∧ v V1.y2 = 15 / 119 := by
  rw [feasible_model1_iff] at h
  obtain ⟨h1, h2, h3, h4, h5, h6⟩ := h
  simp [model1, LinExpr.eval] at hopt
  refine ⟨by linarith, by linarith, by linarith⟩

set_option maxHeartbeats 1600000 in
/-- Every feasible point of the Part 2 model has objective value at
most `35/181`. -/
theorem model2_obj_bound (v : V2 → ℚ) (h : feasible model2 v) :
    model2.objective.eval v ≤ 35 / 181 := by
  rw [feasible_model2_iff] at h
  obtain ⟨h1, h2, h3, bz1, bz2, c1, c2, c3, c4, c5, c6, c7, c8, c9⟩ := h
  simp [model2, LinExpr.eval]
  rcases bz1 with hz1 | hz1 <;> rcases bz2 with hz2 | hz2 <;> linarith

set_option maxHeartbeats 1600000 in
/-- A feasible point of the Part 2 model attaining `35/181` is
`vstar2`. -/
theorem model2_opt_unique (v : V2 → ℚ) (h : feasible model2 v)
    (hopt : model2.objective.eval v = 35 / 181) :
    v V2.y0 = 10 / 181 ∧ v V2.y1 = 10 / 181 ∧ v V2.y2 = 10 / 181 ∧
      v V2.z1 = 1 ∧ v V2.z2 = 1 := by
  rw [feasible_model2_iff] at h
  obtain ⟨h1, h2, h3, bz1, bz2, c1, c2, c3, c4, c5, c6, c7, c8, c9⟩ := h
  simp [model2, LinExpr.eval] at hopt
  rcases bz1 with hz1 | hz1 <;> rcases bz2 with hz2 | hz2 <;>
    exact ⟨by linarith, by linarith, by linarith, by linarith, by linarith⟩

/-- Value of the objective `1.8 * y1 + 1.7 * y2` shared by both
models, at an assignment (Part 1). -/
theorem model1_obj_eval (v : V1 → ℚ) :
    model1.objective.eval v = 1.8 * v V1.y1 + 1.7 * v V1.y2 := by
  simp [model1, LinExpr.eval]

/-- Value of the objective at an assignment (Part 2). -/
theorem model2_obj_eval (v : V2 → ℚ) :
    model2.objective.eval v = 1.8 * v V2.y1 + 1.7 * v V2.y2 := by
  simp [model2, LinExpr.eval]

/-! ## The claims -/

/-- Claim C3: the first model the script builds has exactly 3
continuous decision variables `y0 y1 y2`, each with lower bound 0,
exactly the 3 stated linear constraints, and the single linear
objective maximize `1.8*y1 + 1.7*y2`, and the solver is invoked
exactly once on it. -/
theorem claim_C3 :
    Fintype.card V1 = 3 ∧
    (∀ x : V1, (model1.vars x).cat = Cat.Continuous ∧
      (model1.vars x).lowBound = some 0) ∧
    model1.constraints.length = 3 ∧
    (∀ v : V1 → ℚ, (∀ c ∈ model1.constraints, c.holds v) ↔
      -6 * v V1.y0 + 1.5 * v V1.y1 + v V1.y2 ≤ 0 ∧
      -20 * v V1.y0 + 3.0 * v V1.y1 + 4 * v V1.y2 ≤ 0 ∧
      10 * v V1.y0 + 4.0 * v V1.y1 + 4.1 * v V1.y2 = 1) ∧
    model1.sense = Sense.Maximize ∧
    (∀ v : V1 → ℚ, model1.objective.eval v = 1.8 * v V1.y1 + 1.7 * v V1.y2) ∧
    script.count (Stmt.solveCall 1) = 1 :=
  ⟨by decide, fun x => by cases x <;> exact ⟨rfl, rfl⟩, rfl,
    model1_constraints_iff, rfl, model1_obj_eval, by decide⟩

/-- Claim C1: the second model maximizes `1.8*y1 + 1.7*y2` over
continuous `y0 y1 y2` with lower bound 0 and binary `z1 z2`, subject
to exactly the nine stated constraints (normalization, two transformed
inequalities, and three linking constraints per `i`), after which the
solver is invoked once and the results are printed. -/
theorem claim_C1 :
    model2.sense = Sense.Maximize ∧
    (∀ v : V2 → ℚ, model2.objective.eval v = 1.8 * v V2.y1 + 1.7 * v V2.y2) ∧
    ((model2.vars V2.y0).cat = Cat.Continuous ∧ (model2.vars V2.y0).lowBound = some 0) ∧
    ((model2.vars V2.y1).cat = Cat.Continuous ∧ (model2.vars V2.y1).lowBound = some 0) ∧
    ((model2.vars V2.y2).cat = Cat.Continuous ∧ (model2.vars V2.y2).lowBound = some 0) ∧
    (model2.vars V2.z1).cat = Cat.Binary ∧
    (model2.vars V2.z2).cat = Cat.Binary ∧
    model2.constraints.length = 9 ∧
    (∀ v : V2 → ℚ, (∀ c ∈ model2.constraints, c.holds v) ↔
      10 * v V2.y0 + 4.0 * v V2.y1 + 4.1 * v V2.y2 = 1 ∧
      -6 * v V2.y0 + 1.5 * v V2.y1 + v V2.y2 ≤ 0 ∧
      -20 * v V2.y0 + 3.0 * v V2.y1 + 4 * v V2.y2 ≤ 0 ∧
      v V2.y1 ≤ 0.127 * v V2.z1 ∧
      v V2.y1 - v V2.y0 - 0.032 * v V2.z1 ≥ -0.032 ∧
      v V2.y1 - v V2.y0 + 0.032 * v V2.z1 ≤ 0.032 ∧
      v V2.y2 ≤ 0.127 * v V2.z2 ∧
      v V2.y2 - v V2.y0 - 0.032 * v V2.z2 ≥ -0.032 ∧
      v V2.y2 - v V2.y0 + 0.032 * v V2.z2 ≤ 0.032) ∧
    script.count (Stmt.solveCall 2) = 1 ∧
    script.drop 32 = [Stmt.solveCall 2, Stmt.statusLookup 2, Stmt.printCall 2 0,
      Stmt.printCall 2 1, Stmt.printCall 2 2, Stmt.printCall 2 3] :=
  ⟨rfl, model2_obj_eval, ⟨rfl, rfl⟩, ⟨rfl, rfl⟩, ⟨rfl, rfl⟩, rfl, rfl, rfl,
    model2_constraints_iff, by decide, by decide⟩

/-- Claim C2: under nonnegativity of `y0 y1 y2`, binariness of
`z1 z2`, and the six linking constraints of the Part 2 model, each
`zi = 0` forces `yi = 0` and each `zi = 1` forces `yi = y0`; hence
when `y0 > 0` each ratio `yi / y0` is exactly 0 or exactly 1. -/
theorem claim_C2 (v : V2 → ℚ)
    (hy0 : 0 ≤ v V2.y0) (hy1 : 0 ≤ v V2.y1) (hy2 : 0 ≤ v V2.y2)
    (hz1 : v V2.z1 = 0 ∨ v V2.z1 = 1) (hz2 : v V2.z2 = 0 ∨ v V2.z2 = 1)
    (hlink : ∀ c ∈ model2.constraints.drop 3, c.holds v) :
    ((v V2.z1 = 0 → v V2.y1 = 0) ∧ (v V2.z1 = 1 → v V2.y1 = v V2.y0)) ∧
    ((v V2.z2 = 0 → v V2.y2 = 0) ∧ (v V2.z2 = 1 → v V2.y2 = v V2.y0)) ∧
    (0 < v V2.y0 →
      (v V2.y1 / v V2.y0 = 0 ∨ v V2.y1 / v V2.y0 = 1) ∧
      (v V2.y2 / v V2.y0 = 0 ∨ v V2.y2 / v V2.y0 = 1)) := by
  simp [model2, Constraint.holds, LinExpr.eval, and_assoc] at hlink
  obtain ⟨c4, c5, c6, c7, c8, c9⟩ := hlink
  have f1z : v V2.z1 = 0 → v V2.y1 = 0 := fun h => by
    rw [h] at c4; linarith
  have f1o : v V2.z1 = 1 → v V2.y1 = v V2.y0 := fun h => by
    rw [h] at c5 c6; linarith
  have f2z : v V2.z2 = 0 → v V2.y2 = 0 := fun h => by
    rw [h] at c7; linarith
  have f2o : v V2.z2 = 1 → v V2.y2 = v V2.y0 := fun h => by
    rw [h] at c8 c9; linarith
  refine ⟨⟨f1z, f1o⟩, ⟨f2z, f2o⟩, fun hpos => ⟨?_, ?_⟩⟩
  · rcases hz1 with h | h
    · exact Or.inl (by rw [f1z h]; exact zero_div _)
    · exact Or.inr (by rw [f1o h]; exact div_self (ne_of_gt hpos))
  · rcases hz2 with h | h
    · exact Or.inl (by rw [f2z h]; exact zero_div _)
    · exact Or.inr (by rw [f2o h]; exact div_self (ne_of_gt hpos))

/-- Witness for C2 at the optimal point of the Part 2 model, where
both binaries are 1 and both ratios are forced to 1. -/
theorem claim_C2_witness :
    vstar2 V2.y1 = vstar2 V2.y0 ∧ vstar2 V2.y1 / vstar2 V2.y0 = 1 := by
  have h := claim_C2 vstar2 (by norm_num [vstar2]) (by norm_num [vstar2])
    (by norm_num [vstar2]) (Or.inr (by norm_num [vstar2]))
    (Or.inr (by norm_num [vstar2]))
    (fun c hc => vstar2_feasible.2 c (List.mem_of_mem_drop hc))
  refine ⟨h.1.2 (by norm_num [vstar2]), ?_⟩
  have := (h.2.2 (by norm_num [vstar2])).1
  rcases this with h0 | h1
  · exact absurd h0 (by norm_num [vstar2])
  · exact h1

/-- Claim C4: when the external solver returns a feasible, optimal
assignment for the Part 1 model, the script prints
`x1 = y1/y0 = 4/3` (approximately 1.3333333439111112),
`x2 = y2/y0 = 4` (approximately 4.0), and objective `69/238`
(approximately 0.28991596659999996). -/
theorem claim_C4 (res : SolverResult V1)
    (hfeas : feasible model1 res.values)
    (hopt : ∀ w, feasible model1 w →
      model1.objective.eval w ≤ model1.objective.eval res.values) :
    ∃ out, printsPart1 model1 res = Except.ok out ∧
      out.x1 = 4 / 3 ∧ out.x2 = 4 ∧ out.objValue = 69 / 238 ∧
      |out.x1 - 1.3333333439111112| < 1e-7 ∧
      |out.x2 - 4.0| < 1e-7 ∧
      |out.objValue - 0.28991596659999996| < 1e-7 := by
  have hub := model1_obj_bound res.values hfeas
  have hlb := hopt vstar1 vstar1_feasible
  rw [vstar1_obj] at hlb
  have hobj : model1.objective.eval res.values = 69 / 238 := le_antisymm hub hlb
  obtain ⟨e0, e1, e2⟩ := model1_opt_unique res.values hfeas hobj
  refine ⟨⟨4 / 3, 4, 69 / 238, res.solutionTime⟩, ?_, rfl, rfl, rfl,
    by rw [abs_lt]; constructor <;> norm_num,
    by rw [abs_lt]; constructor <;> norm_num,
    by rw [abs_lt]; constructor <;> norm_num⟩
  simp only [printsPart1, pyDiv, e0, e1, e2, hobj]
  norm_num
  rfl

/-- Witness for C4: the exact optimum `vstar1` fed back as a solver
result. -/
theorem claim_C4_witness :
    ∃ out, printsPart1 model1 ⟨1, vstar1, 0⟩ = Except.ok out ∧
      out.x1 = 4 / 3 ∧ out.x2 = 4 ∧ out.objValue = 69 / 238 ∧
      |out.x1 - 1.3333333439111112| < 1e-7 ∧
      |out.x2 - 4.0| < 1e-7 ∧
      |out.objValue - 0.28991596659999996| < 1e-7 :=
  claim_C4 ⟨1, vstar1, 0⟩ vstar1_feasible
    (fun w hw => by
      show model1.objective.eval w ≤ model1.objective.eval vstar1
      rw [vstar1_obj]
      exact model1_obj_bound w hw)

/-- Claim C5: when the external solver returns a feasible, optimal
assignment for the Part 2 model, the script prints
`x1 = y1/y0 = 1`, `x2 = y2/y0 = 1`, and objective `35/181`
(approximately 0.1933701665). -/
theorem claim_C5 (res : SolverResult V2)
    (hfeas : feasible model2 res.values)
    (hopt : ∀ w, feasible model2 w →
      model2.objective.eval w ≤ model2.objective.eval res.values) :
    ∃ out, printsPart2 model2 res = Except.ok out ∧
      out.x1 = 1 ∧ out.x2 = 1 ∧ out.objValue = 35 / 181 ∧
      |out.x1 - 1.0| < 1e-7 ∧
      |out.x2 - 1.0| < 1e-7 ∧
      |out.objValue - 0.1933701665| < 1e-8 := by
  have hub := model2_obj_bound res.values hfeas
  have hlb := hopt vstar2 vstar2_feasible
  rw [vstar2_obj] at hlb
  have hobj : model2.objective.eval res.values = 35 / 181 := le_antisymm hub hlb
  obtain ⟨e0, e1, e2, _, _⟩ := model2_opt_unique res.values hfeas hobj
  refine ⟨⟨1, 1, 35 / 181, res.solutionTime⟩, ?_, rfl, rfl, rfl,
    by rw [abs_lt]; constructor <;> norm_num,
    by rw [abs_lt]; constructor <;> norm_num,
    by rw [abs_lt]; constructor <;> norm_num⟩
  simp only [printsPart2, pyDiv, e0, e1, e2, hobj]
  norm_num
  rfl

/-- Witness for C5: the exact optimum `vstar2` fed back as a solver
result. -/
theorem claim_C5_witness :
    ∃ out, printsPart2 model2 ⟨1, vstar2, 0⟩ = Except.ok out ∧
      out.x1 = 1 ∧ out.x2 = 1 ∧ out.objValue = 35 / 181 ∧
      |out.x1 - 1.0| < 1e-7 ∧
      |out.x2 - 1.0| < 1e-7 ∧
      |out.objValue - 0.1933701665| < 1e-8 :=
  claim_C5 ⟨1, vstar2, 0⟩ vstar2_feasible
    (fun w hw => by
      show model2.objective.eval w ≤ model2.objective.eval vstar2
      rw [vstar2_obj]
      exact model2_obj_bound w hw)

/-- Claim C6: the ratio computations are unguarded — whenever a
solver outcome assigns 0 to `y0`, the division faults, in either part,
and the fault propagates out of the whole script unhandled. -/
theorem claim_C6 :
    (∀ (m : LpProblem V1) (res : SolverResult V1), res.values V1.y0 = 0 →
      printsPart1 m res = Except.error PyErr.zeroDivision) ∧
    (∀ (m : LpProblem V2) (res : SolverResult V2), res.values V2.y0 = 0 →
      printsPart2 m res = Except.error PyErr.zeroDivision) ∧
    (∀ (s1 : LpProblem V1 → SolverResult V1) (s2 : LpProblem V2 → SolverResult V2),
      (s1 model1).values V1.y0 = 0 →
      runScript s1 s2 = Except.error PyErr.zeroDivision) ∧
    (∀ (s1 : LpProblem V1 → SolverResult V1) (s2 : LpProblem V2 → SolverResult V2),
      (s2 model2).values V2.y0 = 0 →
      runScript s1 s2 = Except.error PyErr.zeroDivision) := by
  have h1 : ∀ (m : LpProblem V1) (res : SolverResult V1), res.values V1.y0 = 0 →
      printsPart1 m res = Except.error PyErr.zeroDivision := by
    intro m res h
    simp [printsPart1, pyDiv, h]
    rfl
  have h2 : ∀ (m : LpProblem V2) (res : SolverResult V2), res.values V2.y0 = 0 →
      printsPart2 m res = Except.error PyErr.zeroDivision := by
    intro m res h
    simp [printsPart2, pyDiv, h]
    rfl
  refine ⟨h1, h2, ?_, ?_⟩
  · intro s1 s2 h
    simp [runScript, h1 _ _ h]
    rfl
  · intro s1 s2 h
    rcases hres : printsPart1 model1 (s1 model1) with e | o1
    · cases e
      simp [runScript, hres]
      rfl
    · simp [runScript, hres, h2 _ _ h]
      rfl

/-- Claim C7: re-running either model construction with identical
input coefficients yields the same model, hence a deterministic solver
returns the same solved values and the same printed output; the
default coefficient records reproduce the script's two models. -/
theorem claim_C7 :
    buildPart1 coeffs1 = model1 ∧ buildPart2 coeffs2 = model2 ∧
    (∀ (s : LpProblem V1 → SolverResult V1) (c c' : Coeffs1), c = c' →
      s (buildPart1 c) = s (buildPart1 c') ∧
      printsPart1 (buildPart1 c) (s (buildPart1 c)) =
        printsPart1 (buildPart1 c') (s (buildPart1 c'))) ∧
    (∀ (s : LpProblem V2 → SolverResult V2) (c c' : Coeffs2), c = c' →
      s (buildPart2 c) = s (buildPart2 c') ∧
      printsPart2 (buildPart2 c) (s (buildPart2 c)) =
        printsPart2 (buildPart2 c') (s (buildPart2 c'))) :=
  ⟨rfl, rfl,
    fun s c c' h => by subst h; exact ⟨rfl, rfl⟩,
    fun s c c' h => by subst h; exact ⟨rfl, rfl⟩⟩

/-- Claim C8: every feasible point of the Part 2 model projects to a
feasible point of the Part 1 model with the same objective value, so
the optimal value of Part 2 is at most that of Part 1. -/
theorem claim_C8 :
    (∀ v : V2 → ℚ, feasible model2 v → feasible model1 (proj21 v)) ∧
    (∀ v : V2 → ℚ, model2.objective.eval v = model1.objective.eval (proj21 v)) ∧
    (∀ a b : ℚ, isMaxValue model1 a → isMaxValue model2 b → b ≤ a) := by
  have hproj : ∀ v : V2 → ℚ, feasible model2 v → feasible model1 (proj21 v) := by
    intro v hv
    rw [feasible_model2_iff] at hv
    rw [feasible_model1_iff]
    obtain ⟨h1, h2, h3, _, _, c1, c2, c3, _⟩ := hv
    simp only [proj21]
    exact ⟨h1, h2, h3, by linarith, by linarith, by linarith⟩
  have hobj : ∀ v : V2 → ℚ, model2.objective.eval v = model1.objective.eval (proj21 v) := by
    intro v
    rw [model1_obj_eval, model2_obj_eval]
    simp only [proj21]
  refine ⟨hproj, hobj, ?_⟩
  rintro a b ⟨⟨w1, hw1, hobj1⟩, hub1⟩ ⟨⟨w2, hw2, hobj2⟩, hub2⟩
  calc b = model2.objective.eval w2 := hobj2.symm
    _ = model1.objective.eval (proj21 w2) := hobj w2
    _ ≤ a := hub1 _ (hproj w2 hw2)

/-- Claim C9: Part 2 is built from a fresh model and fresh variables;
given that Part 1 completed its prints, the Part 2 component of the
script's output equals the standalone Part 2 computation and is
independent of which Part 1 solver ran. -/
theorem claim_C9 :
    (∀ (s1 s1' : LpProblem V1 → SolverResult V1)
       (s2 : LpProblem V2 → SolverResult V2) (o1 o1' : PartOutput),
      printsPart1 model1 (s1 model1) = Except.ok o1 →
      printsPart1 model1 (s1' model1) = Except.ok o1' →
      Except.map Prod.snd (runScript s1 s2) =
        Except.map Prod.snd (runScript s1' s2)) ∧
    (∀ (s1 : LpProblem V1 → SolverResult V1)
       (s2 : LpProblem V2 → SolverResult V2) (o1 : PartOutput),
      printsPart1 model1 (s1 model1) = Except.ok o1 →
      Except.map Prod.snd (runScript s1 s2) = printsPart2 model2 (s2 model2)) := by
  have key : ∀ (s1 : LpProblem V1 → SolverResult V1)
      (s2 : LpProblem V2 → SolverResult V2) (o1 : PartOutput),
      printsPart1 model1 (s1 model1) = Except.ok o1 →
      Except.map Prod.snd (runScript s1 s2) = printsPart2 model2 (s2 model2) := by
    intro s1 s2 o1 h
    rcases h2 : printsPart2 model2 (s2 model2) with e | o2
    · simp [runScript, h, h2, Except.map]
      rfl
    · simp [runScript, h, h2, Except.map]
      rfl
  exact ⟨fun s1 s1' s2 o1 o1' h h' =>
    (key s1 s2 o1 h).trans (key s1' s2 o1' h').symm, key⟩

/-- Claim C10: the status lookup result is discarded — the printed
output is the same whatever status the solver reports — and for every
solver outcome with nonzero `y0` the four quantities are computed and
printed unconditionally; each part performs its status lookup exactly
once. -/
theorem claim_C10 :
    (∀ (m : LpProblem V1) (st st' : ℤ) (vals : V1 → ℚ) (t : ℚ),
      printsPart1 m ⟨st, vals, t⟩ = printsPart1 m ⟨st', vals, t⟩) ∧
    (∀ (m : LpProblem V2) (st st' : ℤ) (vals : V2 → ℚ) (t : ℚ),
      printsPart2 m ⟨st, vals, t⟩ = printsPart2 m ⟨st', vals, t⟩) ∧
    (∀ (m : LpProblem V1) (res : SolverResult V1), res.values V1.y0 ≠ 0 →
      printsPart1 m res =
        Except.ok ⟨res.values V1.y1 / res.values V1.y0,
          res.values V1.y2 / res.values V1.y0,
          m.objective.eval res.values, res.solutionTime⟩) ∧
    (∀ (m : LpProblem V2) (res : SolverResult V2), res.values V2.y0 ≠ 0 →
      printsPart2 m res =
        Except.ok ⟨res.values V2.y1 / res.values V2.y0,
          res.values V2.y2 / res.values V2.y0,
          m.objective.eval res.values, res.solutionTime⟩) ∧
    script.count (Stmt.statusLookup 1) = 1 ∧
    script.count (Stmt.statusLookup 2) = 1 := by
  refine ⟨fun m st st' vals t => rfl, fun m st st' vals t => rfl, ?_, ?_,
    by decide, by decide⟩
  · intro m res h
    simp [printsPart1, pyDiv, h]
    rfl
  · intro m res h
    simp [printsPart2, pyDiv, h]
    rfl

end LinProg
